import Mathlib

/-!
A verification development for the `snowflakes` repository (`src/index.ts`).

The source manipulates JavaScript `BigInt` values, which are arbitrary-precision
integers whose bitwise operators (`&`, `|`, `<<`, `>>`) act on the infinite
two's-complement representation.  They are modelled here by `Int` together with
`Int.land`, `Int.lor` and the `ShiftLeft`/`ShiftRight` instances on `ℤ`, whose
definitions have exactly that semantics.

External collaborators are passed as explicit arguments:
* the wall clock `Date.now()` becomes an `Int` argument `t` (and, for the
  busy-wait loop `waitNextMillis`, a list `later` of the subsequent readings the
  loop would observe; an exhausted list models a clock that never advances, in
  which case the loop would spin forever and the model returns `none`);
* `crypto.getRandomValues` on a 4-byte array becomes four byte arguments.

`new Date(Number(ms))` in `extractIdComponents` is modelled by the millisecond
value itself (exact for every decoded timestamp, which is below `2^53`).
-/

deriving instance DecidableEq for Except

/-- `const CUSTOM_EPOCH = BigInt(1609459200000)` (January 1, 2021). -/
def CUSTOM_EPOCH : Int := 1609459200000

/-- `const TIMESTAMP_BITS = BigInt(41)`. -/
def TIMESTAMP_BITS : Int := 41

/-- `const FLAG_BITS = BigInt(1)`. -/
def FLAG_BITS : Int := 1

/-- `const MACHINE_ID_BITS = BigInt(10)`. -/
def MACHINE_ID_BITS : Int := 10

/-- `const SEQUENCE_BITS = BigInt(12)`. -/
def SEQUENCE_BITS : Int := 12

/-- `const RANDOMNESS_BITS = MACHINE_ID_BITS + SEQUENCE_BITS` (22, frontend). -/
def RANDOMNESS_BITS : Int := MACHINE_ID_BITS + SEQUENCE_BITS

/-- `const MACHINE_ID_SHIFT = SEQUENCE_BITS` (12). -/
def MACHINE_ID_SHIFT : Int := SEQUENCE_BITS

/-- `const FLAG_SHIFT = MACHINE_ID_BITS + SEQUENCE_BITS` (22). -/
def FLAG_SHIFT : Int := MACHINE_ID_BITS + SEQUENCE_BITS

/-- `const TIMESTAMP_SHIFT = FLAG_SHIFT + FLAG_BITS` (23). -/
def TIMESTAMP_SHIFT : Int := FLAG_SHIFT + FLAG_BITS

/-- `const MAX_TIMESTAMP = (BigInt(1) << TIMESTAMP_BITS) - BigInt(1)` (41 bits). -/
def MAX_TIMESTAMP : Int := (1 <<< TIMESTAMP_BITS) - 1

/-- `const MAX_MACHINE_ID = (BigInt(1) << MACHINE_ID_BITS) - BigInt(1)` (10 bits). -/
def MAX_MACHINE_ID : Int := (1 <<< MACHINE_ID_BITS) - 1

/-- `const MAX_SEQUENCE = (BigInt(1) << SEQUENCE_BITS) - BigInt(1)` (12 bits). -/
def MAX_SEQUENCE : Int := (1 <<< SEQUENCE_BITS) - 1

/-- `const MAX_RANDOMNESS = (BigInt(1) << RANDOMNESS_BITS) - BigInt(1)` (22 bits). -/
def MAX_RANDOMNESS : Int := (1 <<< RANDOMNESS_BITS) - 1

/-- The three `throw new Error(...)` sites of the source, by their spec names. -/
inductive SnowflakeError where
  | InvalidMachineId
  | ClockRegression
  | TimestampOverflow
deriving DecidableEq, Repr

/-- The mutable fields of `class SnowflakeGenerator`:
`machineId` (readonly, fixed at construction), `lastTimestamp` (init `0`),
`sequence` (init `0`). -/
structure SnowflakeGenerator where
  machineId : Int
  lastTimestamp : Int
  sequence : Int
deriving DecidableEq, Repr

/-- The constructor of `SnowflakeGenerator`: throws when
`machineId < 0 || machineId > MAX_MACHINE_ID`, otherwise yields the instance
with `lastTimestamp = 0` and `sequence = 0`. -/
def SnowflakeGenerator.create (machineId : Int) :
    Except SnowflakeError SnowflakeGenerator :=
  if machineId < 0 ∨ machineId > MAX_MACHINE_ID then
    .error .InvalidMachineId
  else
    .ok { machineId := machineId, lastTimestamp := 0, sequence := 0 }

/-- `private waitNextMillis(currentTimestamp)`: re-reads `Date.now()`
(successive elements of `readings`) while `timestamp <= currentTimestamp`,
returning the first strictly greater reading.  `none` models the loop spinning
forever because the clock never advanced past `currentTimestamp`. -/
def waitNextMillis (currentTimestamp : Int) : List Int → Option Int
  | [] => none
  | r :: rs => if r ≤ currentTimestamp then waitNextMillis currentTimestamp rs else some r

/-- The tail of `generate()` from `this.lastTimestamp = timestamp;` on
(lines 48–65): commit the new state, compute `adjustedTimestamp`, throw
`TimestampOverflow` past the 41-bit bound, otherwise assemble
`(adjusted << TIMESTAMP_SHIFT) | (1 << FLAG_SHIFT) | (machineId << MACHINE_ID_SHIFT) | sequence`.
The state is returned next to the outcome because the JS `throw` happens after
the mutation of `lastTimestamp`/`sequence`. -/
def SnowflakeGenerator.finishGenerate (s : SnowflakeGenerator)
    (timestamp seq : Int) : Except SnowflakeError Int × SnowflakeGenerator :=
  let s' : SnowflakeGenerator :=
    { s with lastTimestamp := timestamp, sequence := seq }
  let adjustedTimestamp := timestamp - CUSTOM_EPOCH
  if adjustedTimestamp > MAX_TIMESTAMP then
    (.error .TimestampOverflow, s')
  else
    (.ok (Int.lor
      (Int.lor
        (Int.lor (adjustedTimestamp <<< TIMESTAMP_SHIFT) ((1 : Int) <<< FLAG_SHIFT))
        (s.machineId <<< MACHINE_ID_SHIFT))
      seq), s')

/-- `public generate()`: `t` is the `Date.now()` reading at entry and `later`
the readings `waitNextMillis` would subsequently observe.  Returns the
outcome (`id` or thrown error) together with the instance state after the
call; `none` models the unbounded busy wait never ending. -/
def SnowflakeGenerator.generate (s : SnowflakeGenerator) (t : Int)
    (later : List Int) : Option (Except SnowflakeError Int × SnowflakeGenerator) :=
  if t < s.lastTimestamp then
    some (.error .ClockRegression, s)
  else if t = s.lastTimestamp then
    let seq := Int.land (s.sequence + 1) MAX_SEQUENCE
    if seq = 0 then
      match waitNextMillis t later with
      | none => none
      | some t2 => some (s.finishGenerate t2 seq)
    else
      some (s.finishGenerate t seq)
  else
    some (s.finishGenerate t 0)

/-- `DataView.getUint32(0, false)`: the big-endian unsigned 32-bit
interpretation of the four random bytes. -/
def getUint32BE (b0 b1 b2 b3 : Nat) : Nat :=
  ((b0 * 256 + b1) * 256 + b2) * 256 + b3

/-- `generateFrontendSnowflakeId()`: `t` is the `Date.now()` reading and
`b0..b3` the four bytes from `crypto.getRandomValues`.  Masks the 32-bit
random value to 22 bits and assembles
`(adjusted << TIMESTAMP_SHIFT) | (0 << FLAG_SHIFT) | randomness`. -/
def generateFrontendSnowflakeId (t : Int) (b0 b1 b2 b3 : Nat) :
    Except SnowflakeError Int :=
  let adjustedTimestamp := t - CUSTOM_EPOCH
  if adjustedTimestamp > MAX_TIMESTAMP then
    .error .TimestampOverflow
  else
    let flag : Int := 0
    let randomness := Int.land ((getUint32BE b0 b1 b2 b3 : Nat) : Int) MAX_RANDOMNESS
    .ok (Int.lor
      (Int.lor (adjustedTimestamp <<< TIMESTAMP_SHIFT) (flag <<< FLAG_SHIFT))
      randomness)

/-- The record returned by `extractIdComponents`, as the tagged union selected
by the flag bit; the `Date` is represented by its millisecond value. -/
inductive IdComponents where
  | frontend (timestamp randomness : Int)
  | backend (timestamp machineId seq : Int)
deriving DecidableEq, Repr

/-- `extractIdComponents(id)`: pure decode of an arbitrary `bigint`. -/
def extractIdComponents (id : Int) : IdComponents :=
  let adjustedTimestamp := Int.land (id >>> TIMESTAMP_SHIFT) MAX_TIMESTAMP
  let timestamp := adjustedTimestamp + CUSTOM_EPOCH
  let flag := Int.land (id >>> FLAG_SHIFT) 1
  if flag = 0 then
    .frontend timestamp (Int.land id MAX_RANDOMNESS)
  else
    .backend timestamp (Int.land (id >>> MACHINE_ID_SHIFT) MAX_MACHINE_ID)
      (Int.land id MAX_SEQUENCE)

/-- `isValidSnowflakeId(id)`: `now` is the `Date.now()` reading of the
validation instant.  The `try/catch` wrapper of the source never fires (every
operation in the body is total on `bigint`), so the body is modelled directly. -/
def isValidSnowflakeId (id : Int) (now : Int) : Bool :=
  let adjustedTimestamp := Int.land (id >>> TIMESTAMP_SHIFT) MAX_TIMESTAMP
  let timestamp := adjustedTimestamp + CUSTOM_EPOCH
  let flag := Int.land (id >>> FLAG_SHIFT) 1
  if flag ≠ 0 ∧ flag ≠ 1 then
    false
  else if timestamp > now then
    false
  else if flag = 0 then
    let randomness := Int.land id MAX_RANDOMNESS
    if randomness < 0 ∨ randomness > MAX_RANDOMNESS then false else true
  else
    let machineId := Int.land (id >>> MACHINE_ID_SHIFT) MAX_MACHINE_ID
    let seq := Int.land id MAX_SEQUENCE
    if machineId < 0 ∨ machineId > MAX_MACHINE_ID ∨ seq < 0 ∨ seq > MAX_SEQUENCE then
      false
    else
      true

/-! ### Numeric normal forms of the layout constants -/

theorem TIMESTAMP_SHIFT_eq : TIMESTAMP_SHIFT = ((23 : Nat) : Int) := rfl

theorem FLAG_SHIFT_eq : FLAG_SHIFT = ((22 : Nat) : Int) := rfl

theorem MACHINE_ID_SHIFT_eq : MACHINE_ID_SHIFT = ((12 : Nat) : Int) := rfl

theorem MAX_TIMESTAMP_eq : MAX_TIMESTAMP = ((2 ^ 41 - 1 : Nat) : Int) := by decide

theorem MAX_MACHINE_ID_eq : MAX_MACHINE_ID = ((2 ^ 10 - 1 : Nat) : Int) := by decide

theorem MAX_SEQUENCE_eq : MAX_SEQUENCE = ((2 ^ 12 - 1 : Nat) : Int) := by decide

theorem MAX_RANDOMNESS_eq : MAX_RANDOMNESS = ((2 ^ 22 - 1 : Nat) : Int) := by decide

/-! ### Bridges between `Int` bit operations on casts and `Nat` bit operations -/

theorem intLand_coe (m n : Nat) :
    Int.land (m : Int) (n : Int) = ((m &&& n : Nat) : Int) := rfl

theorem intLor_coe (m n : Nat) :
    Int.lor (m : Int) (n : Int) = ((m ||| n : Nat) : Int) := rfl

theorem intShiftLeft_coe (m n : Nat) :
    (m : Int) <<< ((n : Nat) : Int) = ((m <<< n : Nat) : Int) :=
  Int.shiftLeft_coe_nat m n

theorem intShiftRight_coe (m n : Nat) :
    (m : Int) >>> ((n : Nat) : Int) = ((m >>> n : Nat) : Int) :=
  Int.shiftRight_coe_nat m n

/-! ### `Nat`-level bit arithmetic -/

theorem testBit_two_pow_mul (x k i : Nat) :
    (2 ^ k * x).testBit i = if i < k then false else x.testBit (i - k) := by
  have h := Nat.testBit_mul_pow_two_add x (Nat.two_pow_pos k) i
  simpa using h

theorem lor_of_mul_pow {b k : Nat} (x : Nat) (hb : b < 2 ^ k) :
    (2 ^ k * x) ||| b = 2 ^ k * x + b := by
  apply Nat.eq_of_testBit_eq
  intro i
  rw [Nat.testBit_lor, Nat.testBit_mul_pow_two_add x hb i, testBit_two_pow_mul]
  rcases Nat.lt_or_ge i k with h | h
  · simp [h]
  · have hbi : b.testBit i = false :=
      Nat.testBit_eq_false_of_lt
        (lt_of_lt_of_le hb (Nat.pow_le_pow_right (by norm_num) h))
    simp [Nat.not_lt.mpr h, hbi]

theorem natBackendAssemble (a m q : Nat) (hm : m < 2 ^ 10) (hq : q < 2 ^ 12) :
    ((a <<< 23 ||| 1 <<< 22) ||| m <<< 12) ||| q =
      2 ^ 23 * a + 2 ^ 22 + 2 ^ 12 * m + q := by
  have h1 : a <<< 23 ||| 1 <<< 22 = 2 ^ 23 * a + 2 ^ 22 := by
    rw [Nat.shiftLeft_eq, Nat.shiftLeft_eq, one_mul, mul_comm a]
    exact lor_of_mul_pow a (by norm_num)
  have h2 : 2 ^ 23 * a + 2 ^ 22 = 2 ^ 22 * (2 * a + 1) := by ring
  have h3 : (2 ^ 23 * a + 2 ^ 22) ||| m <<< 12 =
      2 ^ 23 * a + 2 ^ 22 + 2 ^ 12 * m := by
    rw [Nat.shiftLeft_eq, mul_comm m, h2]
    have hb : 2 ^ 12 * m < 2 ^ 22 := by
      have h22 : (2 : Nat) ^ 22 = 2 ^ 12 * 2 ^ 10 := by norm_num
      rw [h22]
      exact mul_lt_mul_of_pos_left hm (Nat.two_pow_pos 12)
    rw [lor_of_mul_pow (2 * a + 1) hb]
  have h4 : 2 ^ 23 * a + 2 ^ 22 + 2 ^ 12 * m =
      2 ^ 12 * (2 ^ 11 * a + 2 ^ 10 + m) := by ring
  rw [h1, h3, h4, lor_of_mul_pow (2 ^ 11 * a + 2 ^ 10 + m) hq]

theorem natBackendExtract (a m q : Nat) (ha : a < 2 ^ 41) (hm : m < 2 ^ 10)
    (hq : q < 2 ^ 12) :
    ((2 ^ 23 * a + 2 ^ 22 + 2 ^ 12 * m + q) >>> 23) &&& (2 ^ 41 - 1) = a ∧
    ((2 ^ 23 * a + 2 ^ 22 + 2 ^ 12 * m + q) >>> 22) &&& 1 = 1 ∧
    ((2 ^ 23 * a + 2 ^ 22 + 2 ^ 12 * m + q) >>> 12) &&& (2 ^ 10 - 1) = m ∧
    (2 ^ 23 * a + 2 ^ 22 + 2 ^ 12 * m + q) &&& (2 ^ 12 - 1) = q := by
  rw [Nat.shiftRight_eq_div_pow, Nat.shiftRight_eq_div_pow, Nat.shiftRight_eq_div_pow,
    Nat.and_pow_two_sub_one_eq_mod, Nat.and_one_is_mod,
    Nat.and_pow_two_sub_one_eq_mod, Nat.and_pow_two_sub_one_eq_mod]
  have e41 : (2 : Nat) ^ 41 = 2199023255552 := by norm_num
  have e23 : (2 : Nat) ^ 23 = 8388608 := by norm_num
  have e22 : (2 : Nat) ^ 22 = 4194304 := by norm_num
  have e12 : (2 : Nat) ^ 12 = 4096 := by norm_num
  have e10 : (2 : Nat) ^ 10 = 1024 := by norm_num
  rw [e41, e23, e22, e12, e10] at *
  refine ⟨?_, ?_, ?_, ?_⟩ <;> omega

/-! ### Decoding an assembled backend id -/

theorem extract_backend_nat (a m q : Nat) (ha : a < 2 ^ 41) (hm : m < 2 ^ 10)
    (hq : q < 2 ^ 12) :
    extractIdComponents ((2 ^ 23 * a + 2 ^ 22 + 2 ^ 12 * m + q : Nat) : Int) =
      .backend ((a : Int) + CUSTOM_EPOCH) (m : Int) (q : Int) := by
  obtain ⟨h1, h2, h3, h4⟩ := natBackendExtract a m q ha hm hq
  simp only [extractIdComponents, TIMESTAMP_SHIFT_eq, FLAG_SHIFT_eq,
    MACHINE_ID_SHIFT_eq, MAX_TIMESTAMP_eq, MAX_MACHINE_ID_eq, MAX_SEQUENCE_eq,
    MAX_RANDOMNESS_eq, show (1 : Int) = ((1 : Nat) : Int) from rfl,
    intShiftRight_coe, intLand_coe, h1, h2, h3, h4]
  norm_num

theorem assembleBackend_coe (a m q : Nat) (hm : m < 2 ^ 10) (hq : q < 2 ^ 12) :
    Int.lor (Int.lor (Int.lor ((a : Int) <<< TIMESTAMP_SHIFT) ((1 : Int) <<< FLAG_SHIFT))
        ((m : Int) <<< MACHINE_ID_SHIFT)) (q : Int) =
      ((2 ^ 23 * a + 2 ^ 22 + 2 ^ 12 * m + q : Nat) : Int) := by
  simp only [TIMESTAMP_SHIFT_eq, FLAG_SHIFT_eq, MACHINE_ID_SHIFT_eq,
    show (1 : Int) = ((1 : Nat) : Int) from rfl, intShiftLeft_coe, intLor_coe]
  rw [natBackendAssemble a m q hm hq]

/-! ### Behaviour of `finishGenerate` -/

theorem finishGenerate_overflow (s : SnowflakeGenerator) (ts seq : Int)
    (h : ts - CUSTOM_EPOCH > MAX_TIMESTAMP) :
    s.finishGenerate ts seq =
      (.error .TimestampOverflow, { s with lastTimestamp := ts, sequence := seq }) := by
  simp only [SnowflakeGenerator.finishGenerate]
  rw [if_pos h]

theorem finishGenerate_ok_decode (s : SnowflakeGenerator) (ts seq : Int)
    (hm0 : 0 ≤ s.machineId) (hm1 : s.machineId ≤ MAX_MACHINE_ID)
    (hts0 : CUSTOM_EPOCH ≤ ts) (hts1 : ts - CUSTOM_EPOCH ≤ MAX_TIMESTAMP)
    (hq0 : 0 ≤ seq) (hq1 : seq ≤ MAX_SEQUENCE) :
    ∃ id, s.finishGenerate ts seq =
        (.ok id, { s with lastTimestamp := ts, sequence := seq }) ∧
      extractIdComponents id = .backend ts s.machineId seq := by
  have hm1' : s.machineId ≤ ((2 ^ 10 - 1 : Nat) : Int) := by rw [← MAX_MACHINE_ID_eq]; exact hm1
  have hts1' : ts - CUSTOM_EPOCH ≤ ((2 ^ 41 - 1 : Nat) : Int) := by rw [← MAX_TIMESTAMP_eq]; exact hts1
  have hq1' : seq ≤ ((2 ^ 12 - 1 : Nat) : Int) := by rw [← MAX_SEQUENCE_eq]; exact hq1
  obtain ⟨m, hm⟩ := Int.eq_ofNat_of_zero_le hm0
  obtain ⟨q, hq⟩ := Int.eq_ofNat_of_zero_le hq0
  obtain ⟨a, ha⟩ := Int.eq_ofNat_of_zero_le (show (0 : Int) ≤ ts - CUSTOM_EPOCH by omega)
  have hm' : m < 2 ^ 10 := by
    have h := hm1'
    rw [hm] at h
    omega
  have hq' : q < 2 ^ 12 := by
    have h := hq1'
    rw [hq] at h
    omega
  have ha' : a < 2 ^ 41 := by
    have h := hts1'
    rw [ha] at h
    omega
  simp only [SnowflakeGenerator.finishGenerate]
  rw [if_neg (not_lt.mpr hts1)]
  refine ⟨_, rfl, ?_⟩
  rw [ha, hm, hq, assembleBackend_coe a m q hm' hq', extract_backend_nat a m q ha' hm' hq']
  have hts : (a : Int) + CUSTOM_EPOCH = ts := by omega
  rw [hts]

/-! ### Behaviour of `waitNextMillis` and the branches of `generate` -/

theorem waitNextMillis_gt (c : Int) (l : List Int) (t2 : Int)
    (h : waitNextMillis c l = some t2) : c < t2 := by
  induction l with
  | nil => simp [waitNextMillis] at h
  | cons r rs ih =>
    unfold waitNextMillis at h
    split at h
    · exact ih h
    · cases h
      omega

theorem generate_newMillis (s : SnowflakeGenerator) (t : Int) (later : List Int)
    (h : s.lastTimestamp < t) :
    s.generate t later = some (s.finishGenerate t 0) := by
  unfold SnowflakeGenerator.generate
  rw [if_neg (by omega : ¬ t < s.lastTimestamp),
    if_neg (by omega : ¬ t = s.lastTimestamp)]

theorem generate_sameMillis_noWrap (s : SnowflakeGenerator) (t : Int)
    (later : List Int) (ht : t = s.lastTimestamp)
    (hseq : Int.land (s.sequence + 1) MAX_SEQUENCE ≠ 0) :
    s.generate t later =
      some (s.finishGenerate t (Int.land (s.sequence + 1) MAX_SEQUENCE)) := by
  unfold SnowflakeGenerator.generate
  rw [if_neg (by omega : ¬ t < s.lastTimestamp), if_pos ht]
  simp only [hseq, if_neg, ite_false]

theorem generate_sameMillis_wrap (s : SnowflakeGenerator) (t : Int)
    (later : List Int) (t2 : Int) (ht : t = s.lastTimestamp)
    (hseq : Int.land (s.sequence + 1) MAX_SEQUENCE = 0)
    (hw : waitNextMillis t later = some t2) :
    s.generate t later = some (s.finishGenerate t2 0) := by
  unfold SnowflakeGenerator.generate
  rw [if_neg (by omega : ¬ t < s.lastTimestamp), if_pos ht]
  simp only [hseq, ite_true, if_pos, hw]

theorem generate_sameMillis_wrap_spin (s : SnowflakeGenerator) (t : Int)
    (later : List Int) (ht : t = s.lastTimestamp)
    (hseq : Int.land (s.sequence + 1) MAX_SEQUENCE = 0)
    (hw : waitNextMillis t later = none) :
    s.generate t later = none := by
  unfold SnowflakeGenerator.generate
  rw [if_neg (by omega : ¬ t < s.lastTimestamp), if_pos ht]
  simp only [hseq, ite_true, if_pos, hw]

theorem finishGenerate_state (s : SnowflakeGenerator) (ts seq : Int) :
    (s.finishGenerate ts seq).2 = { s with lastTimestamp := ts, sequence := seq } := by
  simp only [SnowflakeGenerator.finishGenerate]
  split <;> rfl

theorem finishGenerate_ok_bound (s : SnowflakeGenerator) (ts seq id : Int)
    (s' : SnowflakeGenerator) (h : s.finishGenerate ts seq = (.ok id, s')) :
    ts - CUSTOM_EPOCH ≤ MAX_TIMESTAMP := by
  simp only [SnowflakeGenerator.finishGenerate] at h
  split at h
  · simp at h
  · omega

theorem land_mask_range (x : Int) (hx : 0 ≤ x) :
    0 ≤ Int.land x MAX_SEQUENCE ∧ Int.land x MAX_SEQUENCE ≤ MAX_SEQUENCE := by
  obtain ⟨n, hn⟩ := Int.eq_ofNat_of_zero_le hx
  rw [hn, MAX_SEQUENCE_eq, intLand_coe, Nat.and_pow_two_sub_one_eq_mod]
  constructor <;> omega

theorem finishGenerate_ok_fields {s : SnowflakeGenerator} {X Y id : Int}
    {s' : SnowflakeGenerator} (heq : s.finishGenerate X Y = (.ok id, s')) :
    s' = { s with lastTimestamp := X, sequence := Y } ∧
    s'.lastTimestamp = X ∧ s'.sequence = Y ∧ X - CUSTOM_EPOCH ≤ MAX_TIMESTAMP := by
  have hst : (s.finishGenerate X Y).2 = s' := by rw [heq]
  rw [finishGenerate_state] at hst
  exact ⟨hst.symm, by rw [← hst], by rw [← hst],
    finishGenerate_ok_bound s X Y id s' heq⟩

theorem generate_ok_shape {s : SnowflakeGenerator} {t : Int} {later : List Int}
    {id : Int} {s' : SnowflakeGenerator}
    (h : s.generate t later = some (.ok id, s')) :
    s.lastTimestamp ≤ t ∧ t ≤ s'.lastTimestamp ∧
    s'.machineId = s.machineId ∧
    (s'.sequence = 0 ∨ s'.sequence = Int.land (s.sequence + 1) MAX_SEQUENCE) ∧
    s'.lastTimestamp - CUSTOM_EPOCH ≤ MAX_TIMESTAMP ∧
    s.finishGenerate s'.lastTimestamp s'.sequence = (.ok id, s') := by
  simp only [SnowflakeGenerator.generate] at h
  split at h
  · simp at h
  next h1 =>
  split at h
  next h2 =>
    split at h
    next h3 =>
      split at h
      · simp at h
      next t2 hw =>
        obtain ⟨hrec, hlast, hseq, hbound⟩ := finishGenerate_ok_fields (Option.some.inj h)
        have hgt := waitNextMillis_gt t later t2 hw
        refine ⟨by omega, by omega, by rw [hrec], Or.inr hseq, ?_, ?_⟩
        · rw [hlast]
          exact hbound
        · rw [hlast, hseq]
          exact Option.some.inj h
    next h3 =>
      obtain ⟨hrec, hlast, hseq, hbound⟩ := finishGenerate_ok_fields (Option.some.inj h)
      refine ⟨by omega, by omega, by rw [hrec], Or.inr hseq, ?_, ?_⟩
      · rw [hlast]
        exact hbound
      · rw [hlast, hseq]
        exact Option.some.inj h
  next h2 =>
    obtain ⟨hrec, hlast, hseq, hbound⟩ := finishGenerate_ok_fields (Option.some.inj h)
    refine ⟨by omega, by omega, by rw [hrec], Or.inl hseq, ?_, ?_⟩
    · rw [hlast]
      exact hbound
    · rw [hlast, hseq]
      exact Option.some.inj h

theorem finishGenerate_ok_extract {s : SnowflakeGenerator} {X Y id : Int}
    {s' : SnowflakeGenerator}
    (hm0 : 0 ≤ s.machineId) (hm1 : s.machineId ≤ MAX_MACHINE_ID)
    (hX : CUSTOM_EPOCH ≤ X) (hY0 : 0 ≤ Y) (hY1 : Y ≤ MAX_SEQUENCE)
    (heq : s.finishGenerate X Y = (.ok id, s')) :
    extractIdComponents id = .backend X s.machineId Y := by
  have hbound := finishGenerate_ok_bound s X Y id s' heq
  obtain ⟨id2, he, hd⟩ := finishGenerate_ok_decode s X Y hm0 hm1 hX hbound hY0 hY1
  rw [he] at heq
  have hid : id2 = id := by
    have hfst := congrArg Prod.fst heq
    simpa using hfst
  rw [← hid]
  exact hd

theorem generate_ok_seq_range {s : SnowflakeGenerator} {t : Int} {later : List Int}
    {id : Int} {s' : SnowflakeGenerator}
    (h : s.generate t later = some (.ok id, s')) (hs : 0 ≤ s.sequence) :
    0 ≤ s'.sequence ∧ s'.sequence ≤ MAX_SEQUENCE := by
  obtain ⟨-, -, -, hsq, -, -⟩ := generate_ok_shape h
  rcases hsq with h0 | hL
  · rw [h0]
    exact ⟨le_refl 0, by decide⟩
  · rw [hL]
    exact land_mask_range _ (by omega)

theorem generate_ok_extract {s : SnowflakeGenerator} {t : Int} {later : List Int}
    {id : Int} {s' : SnowflakeGenerator}
    (hm0 : 0 ≤ s.machineId) (hm1 : s.machineId ≤ MAX_MACHINE_ID)
    (hs : 0 ≤ s.sequence) (hep : CUSTOM_EPOCH ≤ t)
    (h : s.generate t later = some (.ok id, s')) :
    extractIdComponents id = .backend s'.lastTimestamp s.machineId s'.sequence := by
  obtain ⟨hl1, hl2, hmch, hsq, hbound, heq⟩ := generate_ok_shape h
  obtain ⟨hq0, hq1⟩ := generate_ok_seq_range h hs
  exact finishGenerate_ok_extract hm0 hm1 (by omega) hq0 hq1 heq

/-! ### Claim theorems -/

/-- C3: whenever the time source reports `t` strictly below `lastTimestamp`,
`generate` fails with a `ClockRegression` error and the returned state is the
input state itself, so `lastTimestamp` and `sequence` are exactly as they were
before the call. -/
theorem generate_clockRegression_state_unchanged (s : SnowflakeGenerator)
    (t : Int) (later : List Int) (h : t < s.lastTimestamp) :
    s.generate t later = some (.error .ClockRegression, s) := by
  unfold SnowflakeGenerator.generate
  rw [if_pos h]

theorem generate_clockRegression_state_unchanged_witness :
    (4 : Int) < (⟨0, 5, 3⟩ : SnowflakeGenerator).lastTimestamp ∧
    SnowflakeGenerator.generate ⟨0, 5, 3⟩ 4 [] =
      some (.error .ClockRegression, ⟨0, 5, 3⟩) :=
  ⟨by decide, generate_clockRegression_state_unchanged ⟨0, 5, 3⟩ 4 [] (by decide)⟩

/-- C5: constructing a `SnowflakeGenerator` succeeds (with initial state
`lastTimestamp = 0`, `sequence = 0`) exactly for machine ids in `[0, 1023]`,
and fails with `InvalidMachineId` exactly for machine ids outside that range. -/
theorem create_valid_iff (machineId : Int) :
    (0 ≤ machineId ∧ machineId ≤ 1023 ↔
      SnowflakeGenerator.create machineId = .ok ⟨machineId, 0, 0⟩) ∧
    (machineId < 0 ∨ machineId > 1023 ↔
      SnowflakeGenerator.create machineId = .error .InvalidMachineId) := by
  unfold SnowflakeGenerator.create
  have hM : MAX_MACHINE_ID = 1023 := by decide
  rw [hM]
  constructor
  · constructor
    · intro hR
      rw [if_neg (by omega)]
    · intro h
      by_cases hc : machineId < 0 ∨ machineId > 1023
      · rw [if_pos hc] at h
        simp at h
      · omega
  · constructor
    · intro hc
      rw [if_pos hc]
    · intro h
      by_cases hc : machineId < 0 ∨ machineId > 1023
      · exact hc
      · rw [if_neg hc] at h
        simp at h

theorem finishGenerate_error_fields {s : SnowflakeGenerator} {X Y : Int}
    {e : SnowflakeError} {s' : SnowflakeGenerator}
    (heq : s.finishGenerate X Y = (.error e, s')) :
    e = .TimestampOverflow ∧ MAX_TIMESTAMP < X - CUSTOM_EPOCH ∧
    s' = { s with lastTimestamp := X, sequence := Y } := by
  simp only [SnowflakeGenerator.finishGenerate] at heq
  split at heq
  next hc =>
    have h1 := congrArg Prod.fst heq
    have h2 := congrArg Prod.snd heq
    simp only [Prod.fst, Prod.snd] at h1 h2
    have he : SnowflakeError.TimestampOverflow = e := by
      simpa using h1
    exact ⟨he.symm, by omega, h2.symm⟩
  next hc =>
    have h1 := congrArg Prod.fst heq
    simp at h1

/-- C9: whenever `generate` fails with `TimestampOverflow` — on any of its
paths — the state returned alongside the error has already been mutated,
unlike with `ClockRegression`: `machineId` is kept, `lastTimestamp` is set to
the current time-source value (the entry reading `t`, or, on the
sequence-exhaustion busy-wait path, the strictly greater waited-for reading)
and so lies past the 41-bit bound, and `sequence` has been incremented and
masked (same millisecond) or reset to 0 (new millisecond) before the error is
raised. -/
theorem generate_overflow_mutates (s s' : SnowflakeGenerator) (t : Int)
    (later : List Int)
    (h : s.generate t later = some (.error .TimestampOverflow, s')) :
    s'.machineId = s.machineId ∧
    s.lastTimestamp ≤ t ∧ t ≤ s'.lastTimestamp ∧
    MAX_TIMESTAMP < s'.lastTimestamp - CUSTOM_EPOCH ∧
    (¬(t = s.lastTimestamp ∧ Int.land (s.sequence + 1) MAX_SEQUENCE = 0) →
      s'.lastTimestamp = t) ∧
    (t = s.lastTimestamp ∧ Int.land (s.sequence + 1) MAX_SEQUENCE = 0 →
      waitNextMillis t later = some s'.lastTimestamp ∧ t < s'.lastTimestamp) ∧
    s'.sequence = (if t = s.lastTimestamp
      then Int.land (s.sequence + 1) MAX_SEQUENCE else 0) := by
  simp only [SnowflakeGenerator.generate] at h
  split at h
  · simp at h
  next h1 =>
  split at h
  next h2 =>
    split at h
    next h3 =>
      split at h
      · simp at h
      next t2 hw =>
        obtain ⟨-, hov, hrec⟩ := finishGenerate_error_fields (Option.some.inj h)
        have hgt := waitNextMillis_gt t later t2 hw
        have hlast : s'.lastTimestamp = t2 := by rw [hrec]
        have hseq : s'.sequence = Int.land (s.sequence + 1) MAX_SEQUENCE := by
          rw [hrec]
        refine ⟨by rw [hrec], by omega, by omega, by omega, ?_, ?_, ?_⟩
        · intro hn
          exact absurd ⟨h2, h3⟩ hn
        · intro hyp
          rw [hlast]
          exact ⟨hw, by omega⟩
        · rw [if_pos h2]
          exact hseq
    next h3 =>
      obtain ⟨-, hov, hrec⟩ := finishGenerate_error_fields (Option.some.inj h)
      have hlast : s'.lastTimestamp = t := by rw [hrec]
      have hseq : s'.sequence = Int.land (s.sequence + 1) MAX_SEQUENCE := by
        rw [hrec]
      refine ⟨by rw [hrec], by omega, by omega, by omega, fun _ => hlast, ?_, ?_⟩
      · intro hyp
        exact absurd hyp.2 h3
      · rw [if_pos h2]
        exact hseq
  next h2 =>
    obtain ⟨-, hov, hrec⟩ := finishGenerate_error_fields (Option.some.inj h)
    have hlast : s'.lastTimestamp = t := by rw [hrec]
    have hseq : s'.sequence = 0 := by rw [hrec]
    refine ⟨by rw [hrec], by omega, by omega, by omega, fun _ => hlast, ?_, ?_⟩
    · intro hyp
      exact absurd hyp.1 h2
    · rw [if_neg h2]
      exact hseq

theorem generate_overflow_mutates_witness :
    SnowflakeGenerator.generate ⟨0, 3808482455552, 4095⟩ 3808482455552
        [3808482455553] =
      some (.error .TimestampOverflow, ⟨0, 3808482455553, 0⟩) ∧
    ((0 : Int) = 0 ∧
      (3808482455552 : Int) ≤ 3808482455552 ∧
      (3808482455552 : Int) ≤ 3808482455553 ∧
      MAX_TIMESTAMP < (3808482455553 : Int) - CUSTOM_EPOCH ∧
      (¬((3808482455552 : Int) = 3808482455552 ∧
          Int.land ((4095 : Int) + 1) MAX_SEQUENCE = 0) →
        (3808482455553 : Int) = 3808482455552) ∧
      ((3808482455552 : Int) = 3808482455552 ∧
          Int.land ((4095 : Int) + 1) MAX_SEQUENCE = 0 →
        waitNextMillis 3808482455552 [3808482455553] = some 3808482455553 ∧
          (3808482455552 : Int) < 3808482455553) ∧
      (0 : Int) = (if (3808482455552 : Int) = 3808482455552
        then Int.land ((4095 : Int) + 1) MAX_SEQUENCE else 0)) :=
  ⟨by decide,
    generate_overflow_mutates ⟨0, 3808482455552, 4095⟩ ⟨0, 3808482455553, 0⟩
      3808482455552 [3808482455553] (by decide)⟩

theorem some_pair_fst {x r : Except SnowflakeError Int} {y s' : SnowflakeGenerator}
    (h : some (x, y) = some (r, s')) : r = x := by
  have h' := Option.some.inj h
  have h2 := congrArg Prod.fst h'
  simpa using h2.symm

/-- C4 counterexample: a time-source value `t` whose epoch offset exceeds
`2^41 - 1` does not always make `generate` fail with `TimestampOverflow`: when
`lastTimestamp` is ahead of `t` (a state reachable because an overflow failure
itself advances `lastTimestamp`), the call fails with `ClockRegression`
instead. -/
theorem timestampOverflow_counterexample :
    MAX_TIMESTAMP < 3808482455552 - CUSTOM_EPOCH ∧
    SnowflakeGenerator.generate ⟨0, 3808482455562, 0⟩ 3808482455552 [] =
      some (.error .ClockRegression, ⟨0, 3808482455562, 0⟩) ∧
    SnowflakeError.ClockRegression ≠ SnowflakeError.TimestampOverflow := by
  refine ⟨by decide, by decide, by decide⟩

/-- C4 (amended): provided the clock has not regressed (`lastTimestamp ≤ t`),
whenever `t - CUSTOM_EPOCH` exceeds `2^41 - 1`, any outcome `generate` returns
is a `TimestampOverflow` failure (on the sequence-exhaustion busy-wait path the
waited-for reading is even larger, so it also overflows), and
`generateFrontendSnowflakeId` always fails with `TimestampOverflow`. -/
theorem timestampOverflow_amended (s : SnowflakeGenerator) (t : Int)
    (later : List Int) (hlast : s.lastTimestamp ≤ t)
    (hover : MAX_TIMESTAMP < t - CUSTOM_EPOCH) :
    (∀ r s', s.generate t later = some (r, s') → r = .error .TimestampOverflow) ∧
    ∀ b0 b1 b2 b3 : Nat,
      generateFrontendSnowflakeId t b0 b1 b2 b3 = .error .TimestampOverflow := by
  constructor
  · intro r s' h
    by_cases heq : t = s.lastTimestamp
    · by_cases hwz : Int.land (s.sequence + 1) MAX_SEQUENCE = 0
      · cases hw : waitNextMillis t later with
        | none =>
          rw [generate_sameMillis_wrap_spin s t later heq hwz hw] at h
          cases h
        | some t2 =>
          have hgt := waitNextMillis_gt t later t2 hw
          rw [generate_sameMillis_wrap s t later t2 heq hwz hw,
            finishGenerate_overflow s t2 0 (by omega)] at h
          exact some_pair_fst h
      · rw [generate_sameMillis_noWrap s t later heq hwz,
          finishGenerate_overflow s t _ (by omega)] at h
        exact some_pair_fst h
    · rw [generate_newMillis s t later (by omega),
        finishGenerate_overflow s t 0 (by omega)] at h
      exact some_pair_fst h
  · intro b0 b1 b2 b3
    simp only [generateFrontendSnowflakeId]
    rw [if_pos (by omega : t - CUSTOM_EPOCH > MAX_TIMESTAMP)]

theorem timestampOverflow_amended_witness :
    (⟨0, 0, 0⟩ : SnowflakeGenerator).lastTimestamp ≤ 3808482455552 ∧
    MAX_TIMESTAMP < 3808482455552 - CUSTOM_EPOCH ∧
    generateFrontendSnowflakeId 3808482455552 1 2 3 4 =
      .error .TimestampOverflow :=
  ⟨by decide, by decide,
    (timestampOverflow_amended ⟨0, 0, 0⟩ 3808482455552 [] (by decide)
      (by decide)).2 1 2 3 4⟩

/-- C7: `isValidSnowflakeId` is a total Boolean-valued function on all of `ℤ`
(so in particular on every 64-bit input, and it never raises — the `try/catch`
of the source is dead code), and it returns `false` for any id whose decoded
timestamp (extracted 41-bit field plus `CUSTOM_EPOCH`) is strictly greater
than the current wall-clock reading `now`. -/
theorem isValid_false_of_future (id now : Int)
    (h : Int.land (id >>> TIMESTAMP_SHIFT) MAX_TIMESTAMP + CUSTOM_EPOCH > now) :
    isValidSnowflakeId id now = false := by
  simp only [isValidSnowflakeId]
  split_ifs <;> first | rfl | omega

theorem isValid_false_of_future_witness :
    Int.land (((2199023255551 : Int) <<< TIMESTAMP_SHIFT) >>> TIMESTAMP_SHIFT)
        MAX_TIMESTAMP + CUSTOM_EPOCH > 1700000000000 ∧
    isValidSnowflakeId ((2199023255551 : Int) <<< TIMESTAMP_SHIFT)
      1700000000000 = false :=
  ⟨by decide,
    isValid_false_of_future ((2199023255551 : Int) <<< TIMESTAMP_SHIFT)
      1700000000000 (by decide)⟩

theorem intLand_ofNat_nonneg (x : Int) (n : Nat) : 0 ≤ Int.land x (n : Int) := by
  cases x with
  | ofNat m => exact Int.ofNat_nonneg (m &&& n)
  | negSucc m => exact Int.ofNat_nonneg (Nat.ldiff n m)

theorem extract_backend_timestamp_lower (id ts mid q : Int)
    (h : extractIdComponents id = .backend ts mid q) : CUSTOM_EPOCH ≤ ts := by
  simp only [extractIdComponents] at h
  split_ifs at h with hf
  obtain ⟨rfl, -, -⟩ := h
  rw [MAX_TIMESTAMP_eq]
  have hpos := intLand_ofNat_nonneg (id >>> TIMESTAMP_SHIFT) (2 ^ 41 - 1)
  omega

/-- C2 counterexample, falsifying the claim at two concrete inputs on which all
of its hypotheses hold.  (1) At time-source value `t = 0` (machineId 0,
`lastTimestamp = 0 ≤ t`, `t - CUSTOM_EPOCH ≤ 2^41 - 1`) the decoded timestamp
of the returned id cannot be `t`: below the custom epoch the negative adjusted
timestamp does not round-trip (the decoded timestamp is always at least
`CUSTOM_EPOCH > 0`).  (2) At `t = 1609459200123` with `lastTimestamp = t` and
`sequence = 4095`, the sequence space is exhausted, the generator busy-waits,
and the decoded timestamp is `1609459200124 ≠ t`. -/
theorem generate_decode_roundtrip_counterexample :
    (((0 : Int) ≤ 0 ∧ (0 : Int) ≤ 1023) ∧
      (⟨0, 0, 0⟩ : SnowflakeGenerator).lastTimestamp ≤ 0 ∧
      (0 : Int) - CUSTOM_EPOCH ≤ MAX_TIMESTAMP ∧
      ∃ id s', SnowflakeGenerator.generate ⟨0, 0, 0⟩ 0 [] = some (.ok id, s') ∧
        ∀ mid q, extractIdComponents id ≠ .backend 0 mid q) ∧
    (((0 : Int) ≤ 5 ∧ (5 : Int) ≤ 1023) ∧
      (⟨5, 1609459200123, 4095⟩ : SnowflakeGenerator).lastTimestamp ≤ 1609459200123 ∧
      (1609459200123 : Int) - CUSTOM_EPOCH ≤ MAX_TIMESTAMP ∧
      SnowflakeGenerator.generate ⟨5, 1609459200123, 4095⟩ 1609459200123
          [1609459200123, 1609459200124] =
        some (.ok 1044402176, ⟨5, 1609459200124, 0⟩) ∧
      extractIdComponents 1044402176 = .backend 1609459200124 5 0 ∧
      (1609459200124 : Int) ≠ 1609459200123) := by
  refine ⟨⟨⟨by decide, by decide⟩, by decide, by decide, ?_⟩,
    ⟨by decide, by decide⟩, by decide, by decide, by decide, by decide, by decide⟩
  have hland : Int.land ((⟨0, 0, 0⟩ : SnowflakeGenerator).sequence + 1)
      MAX_SEQUENCE = 1 := by decide
  rw [generate_sameMillis_noWrap ⟨0, 0, 0⟩ 0 [] rfl (by decide), hland]
  simp only [SnowflakeGenerator.finishGenerate]
  rw [if_neg (by decide)]
  refine ⟨_, _, rfl, ?_⟩
  intro mid q hcontra
  have hlow := extract_backend_timestamp_lower _ _ _ _ hcontra
  have he : CUSTOM_EPOCH = 1609459200000 := rfl
  omega

/-- C2 (amended): for a generator state with machineId in `[0, 1023]` and a
nonnegative sequence (every reachable state), and a time-source value with
`CUSTOM_EPOCH ≤ t`, whenever `generate` returns an id, decoding it yields
source = backend, the machineId the generator was constructed with, the
sequence value the generator used (`s'.sequence`), and a timestamp equal to the
generator's updated `lastTimestamp` — which equals `t`, the millisecond of the
call, except on the sequence-exhaustion busy-wait path, where it is the later
observed millisecond. -/
theorem generate_decode_roundtrip (s s' : SnowflakeGenerator) (t : Int)
    (later : List Int) (id : Int)
    (hm0 : 0 ≤ s.machineId) (hm1 : s.machineId ≤ MAX_MACHINE_ID)
    (hq : 0 ≤ s.sequence) (hep : CUSTOM_EPOCH ≤ t)
    (h : s.generate t later = some (.ok id, s')) :
    extractIdComponents id = .backend s'.lastTimestamp s.machineId s'.sequence ∧
    (¬(t = s.lastTimestamp ∧ Int.land (s.sequence + 1) MAX_SEQUENCE = 0) →
      s'.lastTimestamp = t) := by
  refine ⟨generate_ok_extract hm0 hm1 hq hep h, ?_⟩
  intro hnw
  obtain ⟨hl1, -, -, -, -, -⟩ := generate_ok_shape h
  by_cases heq : t = s.lastTimestamp
  · have hz : Int.land (s.sequence + 1) MAX_SEQUENCE ≠ 0 := fun hc => hnw ⟨heq, hc⟩
    rw [generate_sameMillis_noWrap s t later heq hz] at h
    obtain ⟨-, hlast, -, -⟩ := finishGenerate_ok_fields (Option.some.inj h)
    exact hlast
  · rw [generate_newMillis s t later (by omega)] at h
    obtain ⟨-, hlast, -, -⟩ := finishGenerate_ok_fields (Option.some.inj h)
    exact hlast

theorem generate_decode_roundtrip_witness :
    ((0 : Int) ≤ (⟨5, 0, 0⟩ : SnowflakeGenerator).machineId ∧
      (⟨5, 0, 0⟩ : SnowflakeGenerator).machineId ≤ MAX_MACHINE_ID ∧
      (0 : Int) ≤ (⟨5, 0, 0⟩ : SnowflakeGenerator).sequence ∧
      CUSTOM_EPOCH ≤ 1609459200000 ∧
      SnowflakeGenerator.generate ⟨5, 0, 0⟩ 1609459200000 [] =
        some (.ok 4214784, ⟨5, 1609459200000, 0⟩)) ∧
    extractIdComponents 4214784 = .backend 1609459200000 5 0 ∧
    (¬((1609459200000 : Int) = 0 ∧ Int.land ((0 : Int) + 1) MAX_SEQUENCE = 0) →
      (1609459200000 : Int) = 1609459200000) :=
  ⟨⟨by decide, by decide, by decide, by decide, by decide⟩,
    generate_decode_roundtrip ⟨5, 0, 0⟩ ⟨5, 1609459200000, 0⟩ 1609459200000 []
      4214784 (by decide) (by decide) (by decide) (by decide) (by decide)⟩

theorem land_mask_of_le (x : Int) (h0 : 0 ≤ x) (h1 : x ≤ MAX_SEQUENCE) :
    Int.land x MAX_SEQUENCE = x := by
  obtain ⟨n, hn⟩ := Int.eq_ofNat_of_zero_le h0
  subst hn
  rw [MAX_SEQUENCE_eq] at h1 ⊢
  rw [intLand_coe, Nat.and_pow_two_sub_one_eq_mod]
  have hlt : n < 2 ^ 12 := by omega
  rw [Nat.mod_eq_of_lt hlt]

/-- C1: take one instance (machineId in `[0, 1023]`, nonnegative sequence,
reading `t` at or after the custom epoch), call `generate` twice, the second
call at the millisecond `lastTimestamp` recorded by the first.  If the first
call left `sequence < 4095`, both ids decode to the same timestamp and
machineId fields and the second id's low 12 bits (its `sequence` component)
are strictly greater than the first's.  If it left `sequence = 4095` (the
increment would wrap), the second id's timestamp field is the next observed
strictly greater millisecond reported by the time source and its sequence
field is 0. -/
theorem generate_sameMillisecond_sequencing
    (s0 s1 s2 : SnowflakeGenerator) (t : Int) (later1 later2 : List Int)
    (id1 id2 : Int)
    (hm0 : 0 ≤ s0.machineId) (hm1 : s0.machineId ≤ MAX_MACHINE_ID)
    (hq0 : 0 ≤ s0.sequence) (hep : CUSTOM_EPOCH ≤ t)
    (h1 : s0.generate t later1 = some (.ok id1, s1))
    (h2 : s1.generate s1.lastTimestamp later2 = some (.ok id2, s2)) :
    (s1.sequence < 4095 →
      ∃ ts mid q1 q2, extractIdComponents id1 = .backend ts mid q1 ∧
        extractIdComponents id2 = .backend ts mid q2 ∧ q1 < q2) ∧
    (s1.sequence = 4095 →
      ∃ t2, waitNextMillis s1.lastTimestamp later2 = some t2 ∧
        s1.lastTimestamp < t2 ∧
        extractIdComponents id2 = .backend t2 s0.machineId 0) := by
  obtain ⟨hle1, hle2, hmch1, hsq1, hbound1, hfin1⟩ := generate_ok_shape h1
  obtain ⟨hq1a, hq1b⟩ := generate_ok_seq_range h1 hq0
  have hMS : MAX_SEQUENCE = 4095 := by decide
  have hex1 : extractIdComponents id1 =
      .backend s1.lastTimestamp s0.machineId s1.sequence :=
    generate_ok_extract hm0 hm1 hq0 hep h1
  have hm0' : 0 ≤ s1.machineId := by rw [hmch1]; exact hm0
  have hm1' : s1.machineId ≤ MAX_MACHINE_ID := by rw [hmch1]; exact hm1
  have hep1 : CUSTOM_EPOCH ≤ s1.lastTimestamp := by omega
  constructor
  · intro hlt
    have hland : Int.land (s1.sequence + 1) MAX_SEQUENCE = s1.sequence + 1 :=
      land_mask_of_le _ (by omega) (by omega)
    have hnz : Int.land (s1.sequence + 1) MAX_SEQUENCE ≠ 0 := by
      rw [hland]
      omega
    rw [generate_sameMillis_noWrap s1 s1.lastTimestamp later2 rfl hnz] at h2
    have heq2 := Option.some.inj h2
    have hex2 : extractIdComponents id2 =
        .backend s1.lastTimestamp s1.machineId
          (Int.land (s1.sequence + 1) MAX_SEQUENCE) :=
      finishGenerate_ok_extract hm0' hm1' hep1 (by rw [hland]; omega)
        (by rw [hland]; omega) heq2
    rw [hland] at hex2
    exact ⟨s1.lastTimestamp, s0.machineId, s1.sequence, s1.sequence + 1,
      hex1, by rw [← hmch1]; exact hex2, by omega⟩
  · intro h4095
    have hz : Int.land (s1.sequence + 1) MAX_SEQUENCE = 0 := by
      rw [h4095]
      decide
    cases hw : waitNextMillis s1.lastTimestamp later2 with
    | none =>
      rw [generate_sameMillis_wrap_spin s1 s1.lastTimestamp later2 rfl hz hw] at h2
      cases h2
    | some t2 =>
      have hgt := waitNextMillis_gt s1.lastTimestamp later2 t2 hw
      rw [generate_sameMillis_wrap s1 s1.lastTimestamp later2 t2 rfl hz hw] at h2
      have heq2 := Option.some.inj h2
      have hex2 : extractIdComponents id2 = .backend t2 s1.machineId 0 :=
        finishGenerate_ok_extract hm0' hm1' (by omega) (by omega) (by decide) heq2
      exact ⟨t2, rfl, hgt, by rw [← hmch1]; exact hex2⟩

theorem generate_sameMillisecond_sequencing_witness :
    ((0 : Int) ≤ (⟨5, 0, 0⟩ : SnowflakeGenerator).machineId ∧
      (⟨5, 0, 0⟩ : SnowflakeGenerator).machineId ≤ MAX_MACHINE_ID ∧
      CUSTOM_EPOCH ≤ 1609459200000 ∧
      SnowflakeGenerator.generate ⟨5, 0, 0⟩ 1609459200000 [] =
        some (.ok 4214784, ⟨5, 1609459200000, 0⟩) ∧
      SnowflakeGenerator.generate ⟨5, 1609459200000, 0⟩ 1609459200000 [] =
        some (.ok 4214785, ⟨5, 1609459200000, 1⟩)) ∧
    ((0 : Int) < 4095 →
      ∃ ts mid q1 q2, extractIdComponents 4214784 = .backend ts mid q1 ∧
        extractIdComponents 4214785 = .backend ts mid q2 ∧ q1 < q2) ∧
    ((0 : Int) = 4095 →
      ∃ t2, waitNextMillis 1609459200000 [] = some t2 ∧
        (1609459200000 : Int) < t2 ∧
        extractIdComponents 4214785 = .backend t2 5 0) :=
  ⟨⟨by decide, by decide, by decide, by decide, by decide⟩,
    generate_sameMillisecond_sequencing ⟨5, 0, 0⟩ ⟨5, 1609459200000, 0⟩
      ⟨5, 1609459200000, 1⟩ 1609459200000 [] [] 4214784 4214785
      (by decide) (by decide) (by decide) (by decide) (by decide) (by decide)⟩

theorem natFrontendAssemble (a r : Nat) (hr : r < 2 ^ 22) :
    (a <<< 23 ||| 0 <<< 22) ||| r = 2 ^ 23 * a + r := by
  rw [Nat.shiftLeft_eq, Nat.shiftLeft_eq, Nat.zero_mul, Nat.or_zero, mul_comm a]
  exact lor_of_mul_pow a (lt_trans hr (by norm_num))

theorem natFrontendExtract (a r : Nat) (ha : a < 2 ^ 41) (hr : r < 2 ^ 22) :
    ((2 ^ 23 * a + r) >>> 23) &&& (2 ^ 41 - 1) = a ∧
    ((2 ^ 23 * a + r) >>> 22) &&& 1 = 0 ∧
    (2 ^ 23 * a + r) &&& (2 ^ 22 - 1) = r := by
  rw [Nat.shiftRight_eq_div_pow, Nat.shiftRight_eq_div_pow,
    Nat.and_pow_two_sub_one_eq_mod, Nat.and_one_is_mod,
    Nat.and_pow_two_sub_one_eq_mod]
  have e41 : (2 : Nat) ^ 41 = 2199023255552 := by norm_num
  have e23 : (2 : Nat) ^ 23 = 8388608 := by norm_num
  have e22 : (2 : Nat) ^ 22 = 4194304 := by norm_num
  rw [e41, e23, e22] at *
  refine ⟨?_, ?_, ?_⟩ <;> omega

theorem extract_frontend_nat (a r : Nat) (ha : a < 2 ^ 41) (hr : r < 2 ^ 22) :
    extractIdComponents ((2 ^ 23 * a + r : Nat) : Int) =
      .frontend ((a : Int) + CUSTOM_EPOCH) (r : Int) := by
  obtain ⟨e1, e2, e3⟩ := natFrontendExtract a r ha hr
  simp only [extractIdComponents, TIMESTAMP_SHIFT_eq, FLAG_SHIFT_eq,
    MACHINE_ID_SHIFT_eq, MAX_TIMESTAMP_eq, MAX_MACHINE_ID_eq, MAX_SEQUENCE_eq,
    MAX_RANDOMNESS_eq, show (1 : Int) = ((1 : Nat) : Int) from rfl,
    intShiftRight_coe, intLand_coe, e1, e2, e3]
  norm_num

theorem assembleFrontend_coe (a r : Nat) (hr : r < 2 ^ 22) :
    Int.lor (Int.lor ((a : Int) <<< TIMESTAMP_SHIFT) ((0 : Int) <<< FLAG_SHIFT))
        (r : Int) = ((2 ^ 23 * a + r : Nat) : Int) := by
  simp only [TIMESTAMP_SHIFT_eq, FLAG_SHIFT_eq,
    show (0 : Int) = ((0 : Nat) : Int) from rfl, intShiftLeft_coe, intLor_coe]
  rw [natFrontendAssemble a r hr]

/-- C6: for every time-source value `t` with `CUSTOM_EPOCH ≤ t` and
`t - CUSTOM_EPOCH ≤ 2^41 - 1` and every 4-byte random-source value, decoding
the id returned by `generateFrontendSnowflakeId` yields source = frontend, a
timestamp equal to `t`, and a randomness value in `[0, 2^22 - 1]` equal to the
low 22 bits of the big-endian 32-bit interpretation of the 4 random bytes. -/
theorem generateFrontend_decode_roundtrip (t : Int) (b0 b1 b2 b3 : Nat)
    (hb0 : b0 < 256) (hb1 : b1 < 256) (hb2 : b2 < 256) (hb3 : b3 < 256)
    (hep : CUSTOM_EPOCH ≤ t) (hbound : t - CUSTOM_EPOCH ≤ MAX_TIMESTAMP) :
    ∃ id, generateFrontendSnowflakeId t b0 b1 b2 b3 = .ok id ∧
      extractIdComponents id =
        .frontend t ((getUint32BE b0 b1 b2 b3 % 2 ^ 22 : Nat) : Int) ∧
      (0 : Int) ≤ ((getUint32BE b0 b1 b2 b3 % 2 ^ 22 : Nat) : Int) ∧
      ((getUint32BE b0 b1 b2 b3 % 2 ^ 22 : Nat) : Int) ≤ 2 ^ 22 - 1 := by
  obtain ⟨a, ha⟩ :=
    Int.eq_ofNat_of_zero_le (show (0 : Int) ≤ t - CUSTOM_EPOCH by omega)
  have hb' : t - CUSTOM_EPOCH ≤ ((2 ^ 41 - 1 : Nat) : Int) := by
    rw [← MAX_TIMESTAMP_eq]
    exact hbound
  have ha' : a < 2 ^ 41 := by
    rw [ha] at hb'
    omega
  have hmod : getUint32BE b0 b1 b2 b3 % 2 ^ 22 < 2 ^ 22 :=
    Nat.mod_lt _ (by norm_num)
  simp only [generateFrontendSnowflakeId]
  rw [if_neg (not_lt.mpr hbound)]
  have hrand : Int.land ((getUint32BE b0 b1 b2 b3 : Nat) : Int) MAX_RANDOMNESS =
      ((getUint32BE b0 b1 b2 b3 % 2 ^ 22 : Nat) : Int) := by
    rw [MAX_RANDOMNESS_eq, intLand_coe, Nat.and_pow_two_sub_one_eq_mod]
  refine ⟨_, rfl, ?_, Int.ofNat_nonneg _, by omega⟩
  rw [hrand, ha, assembleFrontend_coe a _ hmod, extract_frontend_nat a _ ha' hmod]
  have hta : (a : Int) + CUSTOM_EPOCH = t := by omega
  rw [hta]

theorem generateFrontend_decode_roundtrip_witness :
    ((0 : Nat) < 256 ∧ (0 : Nat) < 256 ∧ (0 : Nat) < 256 ∧ (7 : Nat) < 256 ∧
      CUSTOM_EPOCH ≤ 1609459200000 ∧
      (1609459200000 : Int) - CUSTOM_EPOCH ≤ MAX_TIMESTAMP) ∧
    ∃ id, generateFrontendSnowflakeId 1609459200000 0 0 0 7 = .ok id ∧
      extractIdComponents id =
        .frontend 1609459200000 ((getUint32BE 0 0 0 7 % 2 ^ 22 : Nat) : Int) ∧
      (0 : Int) ≤ ((getUint32BE 0 0 0 7 % 2 ^ 22 : Nat) : Int) ∧
      ((getUint32BE 0 0 0 7 % 2 ^ 22 : Nat) : Int) ≤ 2 ^ 22 - 1 :=
  ⟨⟨by decide, by decide, by decide, by decide, by decide, by decide⟩,
    generateFrontend_decode_roundtrip 1609459200000 0 0 0 7 (by decide)
      (by decide) (by decide) (by decide) (by decide) (by decide)⟩

/-- C8: ids produced by two generator instances with machineIds in `[0, 1023]`
that differ are never equal, whatever the timing: the machineId bit field of an
assembled id decodes back to the instance's machineId, so distinct machineIds
force distinct 64-bit values even when the timestamp and sequence fields
coincide. -/
theorem different_machineIds_distinct_ids
    (sa sb sa' sb' : SnowflakeGenerator) (ta tb : Int) (la lb : List Int)
    (ida idb : Int)
    (hma0 : 0 ≤ sa.machineId) (hma1 : sa.machineId ≤ MAX_MACHINE_ID)
    (hmb0 : 0 ≤ sb.machineId) (hmb1 : sb.machineId ≤ MAX_MACHINE_ID)
    (hqa : 0 ≤ sa.sequence) (hqb : 0 ≤ sb.sequence)
    (hea : CUSTOM_EPOCH ≤ ta) (heb : CUSTOM_EPOCH ≤ tb)
    (hne : sa.machineId ≠ sb.machineId)
    (h1 : sa.generate ta la = some (.ok ida, sa'))
    (h2 : sb.generate tb lb = some (.ok idb, sb')) :
    ida ≠ idb := by
  intro hcontra
  have e1 := generate_ok_extract hma0 hma1 hqa hea h1
  have e2 := generate_ok_extract hmb0 hmb1 hqb heb h2
  rw [hcontra] at e1
  have he := e1.symm.trans e2
  injection he with hts hm hq
  exact hne hm

theorem different_machineIds_distinct_ids_witness :
    ((0 : Int) ≤ (⟨1, 0, 0⟩ : SnowflakeGenerator).machineId ∧
      (⟨1, 0, 0⟩ : SnowflakeGenerator).machineId ≤ MAX_MACHINE_ID ∧
      (0 : Int) ≤ (⟨2, 0, 0⟩ : SnowflakeGenerator).machineId ∧
      (⟨2, 0, 0⟩ : SnowflakeGenerator).machineId ≤ MAX_MACHINE_ID ∧
      (1 : Int) ≠ 2 ∧
      SnowflakeGenerator.generate ⟨1, 0, 0⟩ 1609459200000 [] =
        some (.ok 4198400, ⟨1, 1609459200000, 0⟩) ∧
      SnowflakeGenerator.generate ⟨2, 0, 0⟩ 1609459200000 [] =
        some (.ok 4202496, ⟨2, 1609459200000, 0⟩)) ∧
    (4198400 : Int) ≠ 4202496 :=
  ⟨⟨by decide, by decide, by decide, by decide, by decide, by decide, by decide⟩,
    different_machineIds_distinct_ids ⟨1, 0, 0⟩ ⟨2, 0, 0⟩
      ⟨1, 1609459200000, 0⟩ ⟨2, 1609459200000, 0⟩ 1609459200000 1609459200000
      [] [] 4198400 4202496 (by decide) (by decide) (by decide) (by decide)
      (by decide) (by decide) (by decide) (by decide) (by decide)
      (by decide) (by decide)⟩

/-- C10: for every 64-bit input `id`, `isValidSnowflakeId id now` is `true`
exactly when the decoded timestamp is not strictly greater than `now`: the
flag check and the range checks on randomness, machineId and sequence can
never return `false`, because each value is obtained by masking to its own
field width. -/
theorem isValid_eq_timestamp_check (id now : Int) (h0 : 0 ≤ id)
    (h64 : id < 2 ^ 64) :
    (isValidSnowflakeId id now = true ↔
      Int.land (id >>> TIMESTAMP_SHIFT) MAX_TIMESTAMP + CUSTOM_EPOCH ≤ now) := by
  obtain ⟨n, hn⟩ := Int.eq_ofNat_of_zero_le h0
  subst hn
  simp only [isValidSnowflakeId, TIMESTAMP_SHIFT_eq, FLAG_SHIFT_eq,
    MACHINE_ID_SHIFT_eq, MAX_TIMESTAMP_eq, MAX_MACHINE_ID_eq, MAX_SEQUENCE_eq,
    MAX_RANDOMNESS_eq, show (1 : Int) = ((1 : Nat) : Int) from rfl,
    intShiftRight_coe, intLand_coe, Nat.and_one_is_mod,
    Nat.and_pow_two_sub_one_eq_mod, Nat.shiftRight_eq_div_pow]
  split_ifs with hA hB hC hD hE
  · exact absurd hA (by omega)
  · simp only [false_iff]
    omega
  · exact absurd hD (by omega)
  · exact iff_of_true rfl (by omega)
  · exact absurd hE (by omega)
  · exact iff_of_true rfl (by omega)

theorem isValid_eq_timestamp_check_witness :
    (0 : Int) ≤ 7 ∧ (7 : Int) < 2 ^ 64 ∧
    (isValidSnowflakeId 7 CUSTOM_EPOCH = true ↔
      Int.land ((7 : Int) >>> TIMESTAMP_SHIFT) MAX_TIMESTAMP + CUSTOM_EPOCH ≤
        CUSTOM_EPOCH) :=
  ⟨by decide, by decide,
    isValid_eq_timestamp_check 7 CUSTOM_EPOCH (by decide) (by decide)⟩
